import Mathlib

/-!
Shallow embedding of the Kalavastha weather client, taken from src/index.tsx
(the current revision; src/unnamed/part_000 is an earlier revision of the same
file and agrees with it on the pieces the claims cite, except where noted).

The orchestrator state lives in the Layout component (src/index.tsx lines
482 to 722).  Asynchronous model calls are embedded by passing the completion
of the request (a parsed reply or a thrown exception) as an explicit
FetchResult argument; the synchronous prefix of fetchWeather that runs before
the await is fetchWeatherStart, and the continuation that runs at completion
is fetchWeatherFinish.  Numeric weather fields are embedded as Int: no claim
depends on numeric values, only on control flow and on the string fields.
-/

/-- Embedding of the location record of the WeatherData interface
(src/index.tsx lines 14 to 19). -/
structure Location where
  name : String
  region : String
  country : String
deriving DecidableEq, Repr

/-- Embedding of the WeatherData interface (src/index.tsx lines 14 to 30).
The optional error field carries the model supplied domain failure message. -/
structure WeatherData where
  location : Location
  temperatureCelsius : Int
  temperatureFahrenheit : Int
  feelsLikeCelsius : Int
  feelsLikeFahrenheit : Int
  condition : String
  humidity : Int
  windSpeedKph : Int
  windSpeedMph : Int
  conditionCode : String
  error : Option String
deriving DecidableEq, Repr

/-- The orchestrator state owned by the Layout component (src/index.tsx lines
483 to 499): the pending query text, the current snapshot, the loading,
refreshing and error flags, the search history, and the current route (the
route models the navigate call on line 509). Preference state (unit, icon
set, theme) never interacts with fetchWeather and is embedded separately for
the persistence claims. -/
structure AppState where
  query : String
  weatherData : Option WeatherData
  isLoading : Bool
  isRefreshing : Bool
  error : Option String
  searchHistory : List String
  route : String
deriving DecidableEq, Repr

/-- Completion of one generateContent call inside fetchWeather: either the
reply text parsed into WeatherData, or a thrown exception (any transport or
JSON parse failure, caught on src/index.tsx line 567). -/
inductive FetchResult where
  | parsed (data : WeatherData)
  | exn
deriving DecidableEq, Repr

/-- JavaScript truthiness of the optional error field: the check
if (data.error) on src/index.tsx line 548 takes the error branch exactly when
the field is present and not the empty string. -/
def errTruthy : Option String → Bool
  | none => false
  | some e => e != ""

/-- A completion the code treats as a failure: a thrown exception, or a parsed
reply whose error field is truthy (src/index.tsx lines 548 and 567). -/
def isFailure : FetchResult → Bool
  | FetchResult.parsed d => errTruthy d.error
  | FetchResult.exn => true

/-- The generic transport failure message set on src/index.tsx line 570. -/
def transportErrorMessage : String :=
  "An unexpected error occurred while fetching weather data. Please try again."

/-- Model of the JavaScript String.prototype.toLowerCase call used in the
history deduplication (src/index.tsx line 562); character by character
lowering, which agrees with JavaScript on ASCII data. -/
def jsToLower (s : String) : String :=
  String.mk (s.data.map Char.toLower)

/-- Model of the JavaScript String.prototype.trim call used on
src/index.tsx line 558: strip leading and trailing whitespace. -/
def jsTrim (s : String) : String :=
  String.mk (((s.data.dropWhile Char.isWhitespace).reverse.dropWhile
    Char.isWhitespace).reverse)

/-- A digit or a literal dot: one character of the regex class [\d.] in the
coordinate pattern on src/index.tsx line 558. -/
def isDigitOrDot (c : Char) : Bool :=
  c.isDigit || c == '.'

/-- Consume the regex fragment -?[\d.]+ from the front of the character list,
returning the remainder; none when no digit or dot follows the optional
sign.  The character class never contains a dash or comma, so greedy
consumption is equivalent to the backtracking regex semantics. -/
def chompSignedNum (cs : List Char) : Option (List Char) :=
  let cs1 := match cs with
    | '-' :: r => r
    | _ => cs
  match cs1 with
  | [] => none
  | c :: r => if isDigitOrDot c then some (r.dropWhile isDigitOrDot) else none

/-- Embedding of the anchored coordinate regex on src/index.tsx line 558:
it tests ^-?[\d.]+, ?-?[\d.]+$ against the trimmed query. -/
def coordsPattern (s : String) : Bool :=
  match chompSignedNum s.data with
  | none => false
  | some rest =>
    match rest with
    | ',' :: rest2 =>
      let rest3 := match rest2 with
        | ' ' :: r => r
        | _ => rest2
      match chompSignedNum rest3 with
      | some [] => true
      | _ => false
    | _ => false

/-- The string recorded in the history on a successful manual search
(src/index.tsx lines 558 and 559): the resolved name and country from the
reply when the query looks like a lat,lon pair, the raw query otherwise. -/
def historyEntry (locationQuery : String) (data : WeatherData) : String :=
  if coordsPattern (jsTrim locationQuery) then
    data.location.name ++ ", " ++ data.location.country
  else locationQuery

/-- The history update on a successful manual search (src/index.tsx lines
560 to 564): new entry first, previous entries that match it case
insensitively removed, truncated to five.  The earlier revision
src/unnamed/part_000 lines 255 to 259 performs the same update with the raw
query as the entry. -/
def updateHistory (locationQuery : String) (data : WeatherData)
    (hist : List String) : List String :=
  let entry := historyEntry locationQuery data
  (entry :: hist.filter (fun item => jsToLower item != jsToLower entry)).take 5

/-- The synchronous prefix of fetchWeather (src/index.tsx lines 502 to 510):
an empty query returns at once; a manual search sets the loading flag, clears
the snapshot and the error, and navigates home; a background refresh changes
nothing before the response arrives. -/
def fetchWeatherStart (locationQuery : String) (isRefresh : Bool)
    (s : AppState) : AppState :=
  if locationQuery = "" then s
  else if isRefresh then s
  else { s with isLoading := true, weatherData := none, error := none,
                route := "/" }

/-- The finally block of fetchWeather (src/index.tsx lines 572 to 577): a
manual search drops the loading flag and clears the pending query text; a
refresh leaves both alone. -/
def applyFinally (isRefresh : Bool) (s : AppState) : AppState :=
  if isRefresh then s else { s with isLoading := false, query := "" }

/-- The continuation of fetchWeather at completion of the model call
(src/index.tsx lines 546 to 577): a thrown exception sets the generic
transport message on a manual search and is only logged on a refresh; a
truthy error field sets the model supplied message on a manual search and is
only logged on a refresh; otherwise the error is cleared, the snapshot is
replaced by the whole parsed reply, and a manual search also updates the
history; the finally block then runs. -/
def fetchWeatherFinish (locationQuery : String) (isRefresh : Bool)
    (resp : FetchResult) (s : AppState) : AppState :=
  if locationQuery = "" then s
  else
    match resp with
    | FetchResult.exn =>
        applyFinally isRefresh
          (if isRefresh then s
           else { s with error := some transportErrorMessage })
    | FetchResult.parsed data =>
        if errTruthy data.error then
          applyFinally isRefresh
            (if isRefresh then s else { s with error := data.error })
        else
          applyFinally isRefresh
            (if isRefresh then
               { s with error := none, weatherData := some data }
             else
               { s with error := none, weatherData := some data,
                        searchHistory :=
                          updateHistory locationQuery data s.searchHistory })

/-- One whole fetchWeather call (src/index.tsx lines 502 to 578) given the
completion of its single model request: the synchronous prefix followed by
the completion handler. -/
def fetchWeather (locationQuery : String) (isRefresh : Bool)
    (resp : FetchResult) (s : AppState) : AppState :=
  fetchWeatherFinish locationQuery isRefresh resp
    (fetchWeatherStart locationQuery isRefresh s)

/-- The explicit user refresh action (src/index.tsx lines 662 to 669): a no op
without a current snapshot; otherwise it raises the refreshing flag, runs
fetchWeather on the snapshot location with the refresh flag, and drops the
refreshing flag when the call returns. -/
def handleRefresh (resp : FetchResult) (s : AppState) : AppState :=
  match s.weatherData with
  | none => s
  | some wd =>
      let s2 := fetchWeather (wd.location.name ++ ", " ++ wd.location.country)
        true resp { s with isRefreshing := true }
      { s2 with isRefreshing := false }

/-- Outcome of the platform geolocation request (src/index.tsx lines 580 to
604): the capability may be missing, the callback may deliver coordinates
(embedded as the already formatted decimal strings), or the error callback
fires with the permission denied code or any other code. -/
inductive GeoOutcome where
  | unsupported
  | granted (lat lon : String)
  | denied
  | unavailable
deriving DecidableEq, Repr

/-- The permission denied message set on src/index.tsx line 595. -/
def deniedMessage : String :=
  "Location access denied. Please allow location access to see weather for your current location, or search for a city manually."

/-- The generic geolocation failure message set on src/index.tsx line 597. -/
def unavailableMessage : String :=
  "Could not get your location automatically. Please search for a city manually."

/-- The missing capability message set on src/index.tsx line 602. -/
def unsupportedMessage : String :=
  "Geolocation is not supported by your browser. Please search for a city manually."

/-- The marker the Home view tests with error.includes on src/index.tsx line
116 to decide whether to render the Grant Access button. -/
def grantAccessMarker : String := "Location access denied"

/-- Whether pat occurs at the front of s, character by character. -/
def leadsWith : List Char → List Char → Bool
  | [], _ => true
  | _ :: _, [] => false
  | a :: as, b :: bs => a == b && leadsWith as bs

/-- Whether pat occurs anywhere inside s: model of the JavaScript
String.prototype.includes call on src/index.tsx line 116. -/
def containsSeg (pat : List Char) : List Char → Bool
  | [] => leadsWith pat []
  | c :: rest => leadsWith pat (c :: rest) || containsSeg pat rest

/-- The view condition guarding the Grant Access retry affordance
(src/index.tsx lines 116 to 120). -/
def showGrantAccessButton (e : String) : Bool :=
  containsSeg grantAccessMarker.data e.data

/-- Embedding of requestGeolocation (src/index.tsx lines 580 to 604).  With
the capability present it clears the error and, when no snapshot exists,
shows the loader; the success callback issues a manual fetchWeather on the
lat,lon encoding; the error callback stops the loader and sets the denied or
the generic unavailable message; without the capability it sets the
unsupported message. -/
def requestGeolocation (geo : GeoOutcome) (resp : FetchResult)
    (s : AppState) : AppState :=
  match geo with
  | GeoOutcome.unsupported => { s with error := some unsupportedMessage }
  | GeoOutcome.granted lat lon =>
      let s1 := { s with error := none }
      let s1 := if s1.weatherData.isNone then { s1 with isLoading := true }
        else s1
      fetchWeather (lat ++ "," ++ lon) false resp s1
  | GeoOutcome.denied =>
      let s1 := { s with error := none }
      let s1 := if s1.weatherData.isNone then { s1 with isLoading := true }
        else s1
      { s1 with isLoading := false, error := some deniedMessage }
  | GeoOutcome.unavailable =>
      let s1 := { s with error := none }
      let s1 := if s1.weatherData.isNone then { s1 with isLoading := true }
        else s1
      { s1 with isLoading := false, error := some unavailableMessage }

/-! Concrete data used by the witnesses. -/

/-- A concrete resolved location. -/
def parisLoc : Location :=
  { name := "Paris", region := "Ile-de-France", country := "France" }

/-- A concrete successful reply (error field absent). -/
def parisData : WeatherData :=
  { location := parisLoc, temperatureCelsius := 20,
    temperatureFahrenheit := 68, feelsLikeCelsius := 19,
    feelsLikeFahrenheit := 66, condition := "Sunny", humidity := 40,
    windSpeedKph := 10, windSpeedMph := 6, conditionCode := "sunny",
    error := none }

/-- A concrete domain failure reply. -/
def notFoundData : WeatherData :=
  { parisData with error := some "City not found" }

/-- A concrete idle state whose history holds Paris and Tokyo, as in the
example of the specification. -/
def idleState : AppState :=
  { query := "", weatherData := none, isLoading := false,
    isRefreshing := false, error := none,
    searchHistory := ["Paris", "Tokyo"], route := "/" }

/-- A concrete state holding a current snapshot. -/
def snapshotState : AppState :=
  { idleState with weatherData := some parisData }

/-! Claim theorems. -/

/-- Claim C9: calling fetchWeather with an empty location query is a no op:
the guard on src/index.tsx line 503 returns before the request is built, so
the result does not depend on any completion and no field of the state
(snapshot, loading, refreshing, error, history, pending query, route)
changes. -/
theorem fetchWeather_empty_query_noop (isRefresh : Bool) (resp : FetchResult)
    (s : AppState) : fetchWeather "" isRefresh resp s = s := by
  cases resp <;>
    simp [fetchWeather, fetchWeatherStart, fetchWeatherFinish]

/-- Claim C3: before any response arrives, a manual search has set the
loading flag and cleared the snapshot and the error (and navigated home),
while a background refresh has changed nothing at all, leaving the visible
snapshot in place. -/
theorem fetchWeatherStart_manual_clears_refresh_keeps (q : String)
    (hq : q ≠ "") (s : AppState) :
    fetchWeatherStart q false s =
      { s with isLoading := true, weatherData := none, error := none,
               route := "/" } ∧
    fetchWeatherStart q true s = s := by
  constructor <;> simp [fetchWeatherStart, hq]

/-- Claim C3 witness at a concrete query and state. -/
theorem fetchWeatherStart_manual_clears_refresh_keeps_witness :
    ("Paris" ≠ "") ∧
    (fetchWeatherStart "Paris" false snapshotState =
      { snapshotState with isLoading := true, weatherData := none,
                           error := none, route := "/" } ∧
     fetchWeatherStart "Paris" true snapshotState = snapshotState) :=
  ⟨by decide, fetchWeatherStart_manual_clears_refresh_keeps "Paris"
    (by decide) snapshotState⟩

/-- Claim C2: a completion whose parsed reply has no error field replaces the
prior snapshot wholesale by the parsed record and clears any existing error,
on a manual search and on a refresh alike (src/index.tsx lines 554 to 556). -/
theorem fetchWeather_success_replaces_snapshot_clears_error (q : String)
    (hq : q ≠ "") (d : WeatherData) (hd : d.error = none) (isRefresh : Bool)
    (s : AppState) :
    (fetchWeather q isRefresh (FetchResult.parsed d) s).weatherData = some d ∧
    (fetchWeather q isRefresh (FetchResult.parsed d) s).error = none := by
  cases isRefresh <;>
    simp [fetchWeather, fetchWeatherStart, fetchWeatherFinish, applyFinally,
      errTruthy, hd, hq]

/-- Claim C2 witness at a concrete query, reply and state. -/
theorem fetchWeather_success_replaces_snapshot_clears_error_witness :
    ("Paris" ≠ "") ∧ parisData.error = none ∧
    ((fetchWeather "Paris" false (FetchResult.parsed parisData)
        idleState).weatherData = some parisData ∧
     (fetchWeather "Paris" false (FetchResult.parsed parisData)
        idleState).error = none) :=
  ⟨by decide, rfl, fetchWeather_success_replaces_snapshot_clears_error
    "Paris" (by decide) parisData rfl false idleState⟩

/-- Claim C4: when the reply to a manual search carries a nonempty error
field, the orchestrator sets its error to exactly the model supplied message,
the snapshot is absent when the call completes (the manual search cleared it
on entry and the failure branch never sets it), and loading has stopped. -/
theorem fetchWeather_manual_domain_failure_sets_error (q : String)
    (hq : q ≠ "") (d : WeatherData) (e : String) (hd : d.error = some e)
    (he : e ≠ "") (s : AppState) :
    (fetchWeather q false (FetchResult.parsed d) s).error = some e ∧
    (fetchWeather q false (FetchResult.parsed d) s).weatherData = none ∧
    (fetchWeather q false (FetchResult.parsed d) s).isLoading = false := by
  simp [fetchWeather, fetchWeatherStart, fetchWeatherFinish, applyFinally,
    errTruthy, hd, hq, he]

/-- Claim C4 witness at a concrete query, domain failure reply and state. -/
theorem fetchWeather_manual_domain_failure_sets_error_witness :
    ("Atlantis" ≠ "") ∧ notFoundData.error = some "City not found" ∧
    ("City not found" ≠ "") ∧
    ((fetchWeather "Atlantis" false (FetchResult.parsed notFoundData)
        snapshotState).error = some "City not found" ∧
     (fetchWeather "Atlantis" false (FetchResult.parsed notFoundData)
        snapshotState).weatherData = none ∧
     (fetchWeather "Atlantis" false (FetchResult.parsed notFoundData)
        snapshotState).isLoading = false) :=
  ⟨by decide, rfl, by decide, fetchWeather_manual_domain_failure_sets_error
    "Atlantis" (by decide) notFoundData "City not found" rfl (by decide)
    snapshotState⟩

/-- Claim C1: a successful manual search updates the history by inserting the
new entry at the front, removing every previous entry that matches it case
insensitively, and truncating to five entries; hence the history never
exceeds five entries and no later entry duplicates the front entry case
insensitively (re-searching an existing entry moves it to the front). -/
theorem fetchWeather_manual_success_updates_history (q : String)
    (hq : q ≠ "") (d : WeatherData) (hd : errTruthy d.error = false)
    (s : AppState) :
    (fetchWeather q false (FetchResult.parsed d) s).searchHistory =
      (historyEntry q d ::
        s.searchHistory.filter
          (fun item => jsToLower item != jsToLower (historyEntry q d))).take
        5 ∧
    (fetchWeather q false (FetchResult.parsed d) s).searchHistory.length ≤
      5 ∧
    ∀ x ∈ (fetchWeather q false (FetchResult.parsed d) s).searchHistory.tail,
      jsToLower x ≠ jsToLower (historyEntry q d) := by
  have hhist : (fetchWeather q false (FetchResult.parsed d) s).searchHistory =
      (historyEntry q d ::
        s.searchHistory.filter
          (fun item => jsToLower item != jsToLower (historyEntry q d))).take
        5 := by
    simp [fetchWeather, fetchWeatherStart, fetchWeatherFinish, applyFinally,
      updateHistory, hd, hq]
  refine ⟨hhist, ?_, ?_⟩
  · rw [hhist]
    simp [List.length_take]
  · intro x hx
    rw [hhist] at hx
    rw [List.take_succ_cons, List.tail_cons] at hx
    have hx2 := List.mem_filter.mp (List.mem_of_mem_take hx)
    simpa using hx2.2

/-- Claim C1 witness: the example of the specification, searching paris with
history Paris, Tokyo; the new entry replaces the old Paris at the front. -/
theorem fetchWeather_manual_success_updates_history_witness :
    ("paris" ≠ "") ∧ errTruthy parisData.error = false ∧
    (fetchWeather "paris" false (FetchResult.parsed parisData)
      idleState).searchHistory = ["paris", "Tokyo"] ∧
    ((fetchWeather "paris" false (FetchResult.parsed parisData)
        idleState).searchHistory =
      (historyEntry "paris" parisData ::
        idleState.searchHistory.filter
          (fun item =>
            jsToLower item != jsToLower (historyEntry "paris"
              parisData))).take 5 ∧
     (fetchWeather "paris" false (FetchResult.parsed parisData)
        idleState).searchHistory.length ≤ 5 ∧
     ∀ x ∈ (fetchWeather "paris" false (FetchResult.parsed parisData)
        idleState).searchHistory.tail,
       jsToLower x ≠ jsToLower (historyEntry "paris" parisData)) :=
  ⟨by decide, rfl, by decide,
   fetchWeather_manual_success_updates_history "paris" (by decide) parisData
     rfl idleState⟩

/-- Claim C10: the history entry recorded by a successful manual search is
the resolved name and country from the reply when the query matches the
lat,lon coordinate pattern, and the raw query string otherwise
(src/index.tsx lines 558 and 559); the recorded entry is the new front of
the history. -/
theorem fetchWeather_history_entry_resolves_coords (q : String) (hq : q ≠ "")
    (d : WeatherData) (hd : errTruthy d.error = false) (s : AppState) :
    (fetchWeather q false (FetchResult.parsed d) s).searchHistory.head? =
      some (if coordsPattern (jsTrim q) then
        d.location.name ++ ", " ++ d.location.country
      else q) := by
  simp [fetchWeather, fetchWeatherStart, fetchWeatherFinish, applyFinally,
    updateHistory, historyEntry, hd, hq]

/-- Claim C10 witness: a coordinate query records the resolved location, and
the same concrete run shows the resolved string Paris, France; a plain city
query records the raw query. -/
theorem fetchWeather_history_entry_resolves_coords_witness :
    ("48.85,2.35" ≠ "") ∧ errTruthy parisData.error = false ∧
    coordsPattern (jsTrim "48.85,2.35") = true ∧
    (fetchWeather "48.85,2.35" false (FetchResult.parsed parisData)
      idleState).searchHistory.head? =
      some (if coordsPattern (jsTrim "48.85,2.35") then
        parisData.location.name ++ ", " ++ parisData.location.country
      else "48.85,2.35") :=
  ⟨by decide, rfl, by decide,
   fetchWeather_history_entry_resolves_coords "48.85,2.35" (by decide)
     parisData rfl idleState⟩

/-- Helper for claim C5: a failing completion of a fetch carrying the refresh
flag leaves the whole orchestrator state untouched: the failure branches only
log on a refresh, and the finally block only acts on a manual search. -/
theorem fetchWeather_refresh_failure_noop (q : String) (resp : FetchResult)
    (hfail : isFailure resp = true) (s : AppState) :
    fetchWeather q true resp s = s := by
  by_cases hq : q = ""
  · subst hq
    cases resp <;>
      simp [fetchWeather, fetchWeatherStart, fetchWeatherFinish]
  · cases resp with
    | exn =>
        simp [fetchWeather, fetchWeatherStart, fetchWeatherFinish,
          applyFinally, hq]
    | parsed d =>
        simp only [isFailure] at hfail
        simp [fetchWeather, fetchWeatherStart, fetchWeatherFinish,
          applyFinally, hq, hfail]

/-- Claim C5: a failing background refresh (domain failure or thrown
exception under the refresh flag) changes no state field at all: the error,
the snapshot and the loading flag stay as they were, whether the refresh came
from the interval timer (a bare fetchWeather call with the refresh flag,
src/index.tsx line 642) or from the user refresh action, which only toggles
the refreshing flag on around the attempt and off after it (src/index.tsx
lines 662 to 669). -/
theorem refresh_failure_leaves_state (resp : FetchResult)
    (hfail : isFailure resp = true) (s : AppState) (wd : WeatherData)
    (hwd : s.weatherData = some wd) :
    fetchWeather (wd.location.name ++ ", " ++ wd.location.country) true resp
      s = s ∧
    fetchWeather (wd.location.name ++ ", " ++ wd.location.country) true resp
      { s with isRefreshing := true } = { s with isRefreshing := true } ∧
    handleRefresh resp s = { s with isRefreshing := false } := by
  obtain ⟨q0, w0, l0, r0, e0, h0, ro0⟩ := s
  dsimp only at hwd
  subst hwd
  refine ⟨fetchWeather_refresh_failure_noop _ resp hfail _,
    fetchWeather_refresh_failure_noop _ resp hfail _, ?_⟩
  simp [handleRefresh,
    fetchWeather_refresh_failure_noop _ resp hfail
      (AppState.mk q0 (some wd) l0 true e0 h0 ro0)]

/-- Claim C5 witness: a transport failure during a refresh of the concrete
snapshot state. -/
theorem refresh_failure_leaves_state_witness :
    isFailure FetchResult.exn = true ∧
    snapshotState.weatherData = some parisData ∧
    (fetchWeather (parisData.location.name ++ ", " ++
        parisData.location.country) true FetchResult.exn snapshotState =
        snapshotState ∧
     fetchWeather (parisData.location.name ++ ", " ++
        parisData.location.country) true FetchResult.exn
        { snapshotState with isRefreshing := true } =
        { snapshotState with isRefreshing := true } ∧
     handleRefresh FetchResult.exn snapshotState =
        { snapshotState with isRefreshing := false }) :=
  ⟨rfl, rfl, refresh_failure_leaves_state FetchResult.exn rfl snapshotState
    parisData rfl⟩

/-- Claim C6: geolocation permission denial sets exactly the denied message;
that message contains the marker the Home view tests for, so the view renders
the Grant Access affordance for it, while the transport failure message and
the two other geolocation messages do not contain the marker and differ from
the denied message. -/
theorem geolocation_denied_error_distinct (resp : FetchResult)
    (s : AppState) :
    (requestGeolocation GeoOutcome.denied resp s).error =
      some deniedMessage ∧
    showGrantAccessButton deniedMessage = true ∧
    showGrantAccessButton transportErrorMessage = false ∧
    showGrantAccessButton unavailableMessage = false ∧
    showGrantAccessButton unsupportedMessage = false ∧
    deniedMessage ≠ transportErrorMessage ∧
    deniedMessage ≠ unavailableMessage ∧
    deniedMessage ≠ unsupportedMessage := by
  refine ⟨?_, by decide, by decide, by decide, by decide, by decide,
    by decide, by decide⟩
  simp only [requestGeolocation]

/-!
Persistence layer.  localStorage is a key to string map, read once by the
state initializers (src/index.tsx lines 488 to 499) and written by the
persistence effects (src/index.tsx lines 615 to 630).  The history passes
through JSON.stringify and JSON.parse; these builtins are embedded below,
restricted to the grammar the app ever writes under the weather-history key:
a JSON array of JSON strings (with the standard escape forms).  Inputs
outside that grammar make the embedded parser fail, exactly as JSON.parse
throws on text that is not valid JSON; the failing input used for claim C8
is invalid JSON outright, so real JSON.parse throws on it as well.
-/

/-- The localStorage key to string map. -/
def Store : Type := String → Option String

/-- localStorage.getItem: the stored string, or none for a missing key. -/
def getItem (st : Store) (k : String) : Option String := st k

/-- localStorage.setItem: replace or create the binding of one key. -/
def setItem (st : Store) (k v : String) : Store :=
  fun k2 => if k2 = k then some v else st k2

/-- A localStorage with no keys set (first ever visit). -/
def emptyStore : Store := fun _ => none

/-- The temperature unit preference (src/index.tsx line 62). -/
inductive TempUnit where
  | C
  | F
deriving DecidableEq, Repr

/-- The string stored for a temperature unit. -/
def TempUnit.toStr : TempUnit → String
  | TempUnit.C => "C"
  | TempUnit.F => "F"

/-- The icon set preference (src/index.tsx line 53). -/
inductive IconSet where
  | emojis
  | classic
deriving DecidableEq, Repr

/-- The string stored for an icon set. -/
def IconSet.toStr : IconSet → String
  | IconSet.emojis => "emojis"
  | IconSet.classic => "classic"

/-- The theme preference (src/index.tsx line 54). -/
inductive Theme where
  | light
  | dark
  | ocean
deriving DecidableEq, Repr

/-- The string stored for a theme. -/
def Theme.toStr : Theme → String
  | Theme.light => "light"
  | Theme.dark => "dark"
  | Theme.ocean => "ocean"

/-- The lower case hexadecimal digit for a value below sixteen, as produced
by JSON.stringify in its control character escapes. -/
def hexDigitChar (n : Nat) : Char :=
  if n < 10 then Char.ofNat (48 + n) else Char.ofNat (87 + n)

/-- The JSON.stringify encoding of one character inside a string literal:
quote and backslash get a backslash escape, the named control characters get
their short escapes, the remaining control characters get a four digit
hexadecimal escape, and every other character stands for itself. -/
def escChar (c : Char) : List Char :=
  if c = '"' then ['\\', '"']
  else if c = '\\' then ['\\', '\\']
  else if c = Char.ofNat 8 then ['\\', 'b']
  else if c = '\t' then ['\\', 't']
  else if c = '\n' then ['\\', 'n']
  else if c = Char.ofNat 12 then ['\\', 'f']
  else if c = '\r' then ['\\', 'r']
  else if c.toNat < 32 then
    ['\\', 'u', '0', '0', hexDigitChar (c.toNat / 16),
     hexDigitChar (c.toNat % 16)]
  else [c]

/-- The JSON.stringify encoding of one string, quotes included. -/
def encodeStr (s : List Char) : List Char :=
  '"' :: s.flatMap escChar ++ ['"']

/-- The JSON.stringify encoding of the second and later array elements, each
preceded by a comma. -/
def encodeTail : List (List Char) → List Char
  | [] => []
  | s :: rest => ',' :: encodeStr s ++ encodeTail rest

/-- JSON.stringify of an array of strings, as written to the weather-history
key on src/index.tsx line 629. -/
def stringifyList (l : List String) : String :=
  match l.map String.data with
  | [] => "[]"
  | s :: rest => String.mk ('[' :: encodeStr s ++ encodeTail rest ++ [']'])

/-- The numeric value of one hexadecimal digit accepted by a JSON unicode
escape. -/
def hexVal (c : Char) : Option Nat :=
  if '0' ≤ c ∧ c ≤ '9' then some (c.toNat - 48)
  else if 'a' ≤ c ∧ c ≤ 'f' then some (c.toNat - 87)
  else if 'A' ≤ c ∧ c ≤ 'F' then some (c.toNat - 55)
  else none

/-- The single character named by a short JSON escape. -/
def escMap (e : Char) : Option Char :=
  if e = '"' then some '"'
  else if e = '\\' then some '\\'
  else if e = '/' then some '/'
  else if e = 'b' then some (Char.ofNat 8)
  else if e = 'f' then some (Char.ofNat 12)
  else if e = 'n' then some '\n'
  else if e = 'r' then some '\r'
  else if e = 't' then some '\t'
  else none

/-- Parse the body of a JSON string literal after its opening quote: the
decoded characters and the remainder after the closing quote.  Unescaped
control characters are invalid JSON; a unicode escape in the surrogate range
is rejected (Lean characters are unicode scalar values, and the app never
writes such escapes). -/
def parseStrBody : List Char → Option (List Char × List Char)
  | [] => none
  | c :: rest =>
    if c = '"' then some ([], rest)
    else if c = '\\' then
      match rest with
      | [] => none
      | e :: rest2 =>
        if e = 'u' then
          match rest2 with
          | h1 :: h2 :: h3 :: h4 :: rest4 =>
            match hexVal h1, hexVal h2, hexVal h3, hexVal h4 with
            | some a, some b, some c2, some d =>
              let n := ((a * 16 + b) * 16 + c2) * 16 + d
              if n < 55296 ∨ 57343 < n then
                (parseStrBody rest4).map (fun p => (Char.ofNat n :: p.1, p.2))
              else none
            | _, _, _, _ => none
          | _ => none
        else
          match escMap e with
          | some ec => (parseStrBody rest2).map (fun p => (ec :: p.1, p.2))
          | none => none
    else if c.toNat < 32 then none
    else (parseStrBody rest).map (fun p => (c :: p.1, p.2))

/-- JSON whitespace. -/
def isWsChar (c : Char) : Bool :=
  c == ' ' || c == '\t' || c == '\n' || c == '\r'

/-- Drop leading JSON whitespace. -/
def skipWs (cs : List Char) : List Char := cs.dropWhile isWsChar

/-- Parse the continuation of a JSON string array after its first element:
either the closing bracket, or a comma and a further string, repeatedly.
Each step consumes at least the comma, so any fuel exceeding the length of
the input makes the fuel irrelevant. -/
def parseLoop : Nat → List Char → Option (List (List Char) × List Char)
  | 0, _ => none
  | fuel + 1, cs =>
    match skipWs cs with
    | [] => none
    | c :: rest =>
      if c = ']' then some ([], rest)
      else if c = ',' then
        match skipWs rest with
        | [] => none
        | c2 :: rest2 =>
          if c2 = '"' then
            match parseStrBody rest2 with
            | some (s, r) =>
              match parseLoop fuel r with
              | some (more, tail) => some (s :: more, tail)
              | none => none
            | none => none
          else none
      else none

/-- JSON.parse restricted to arrays of strings, the entire grammar the app
ever writes under the weather-history key: none is a parse failure, which in
the source is a thrown SyntaxError. -/
def parseStringList (input : String) : Option (List String) :=
  match skipWs input.data with
  | [] => none
  | c :: rest =>
    if c = '[' then
      match skipWs rest with
      | [] => none
      | c2 :: rest2 =>
        if c2 = ']' then
          if skipWs rest2 = [] then some [] else none
        else if c2 = '"' then
          match parseStrBody rest2 with
          | some (s, r) =>
            match parseLoop (r.length + 1) r with
            | some (more, tail) =>
              if skipWs tail = [] then
                some ((s :: more).map (fun l => String.mk l))
              else none
            | none => none
          | none => none
        else none
    else none

/-- The startup initializer shared by the three preferences (src/index.tsx
lines 488 to 496): the stored string when present and nonempty (the as cast
of the source checks nothing), the default otherwise. -/
def initRawPref (st : Store) (key dflt : String) : String :=
  match getItem st key with
  | none => dflt
  | some v => if v = "" then dflt else v

/-- The startup value of the unit preference (src/index.tsx lines 488, 489). -/
def initUnit (st : Store) : String := initRawPref st "weather-unit" "C"

/-- The startup value of the icon set preference (src/index.tsx lines 491,
492). -/
def initIconSet (st : Store) : String :=
  initRawPref st "weather-icon-set" "emojis"

/-- The startup value of the theme preference (src/index.tsx lines 494,
495). -/
def initTheme (st : Store) : String := initRawPref st "weather-theme" "light"

/-- The startup initializer of the search history (src/index.tsx lines 497
to 499): JSON.parse of the stored string, with the DEFAULT applied only when
the key is missing or holds the empty string; none means the initializer
threw and the component failed to render.  The earlier revision
src/unnamed/part_000 lines 193 to 195 is identical. -/
def initSearchHistory (st : Store) : Option (List String) :=
  let raw := match getItem st "weather-history" with
    | none => "[]"
    | some v => if v = "" then "[]" else v
  parseStringList raw

/-- The persistence effects (src/index.tsx lines 615 to 630): every change
writes the unit, icon set and theme strings and the JSON encoded history to
their keys. -/
def persistAll (u : TempUnit) (ic : IconSet) (th : Theme) (h : List String)
    (st : Store) : Store :=
  setItem (setItem (setItem (setItem st "weather-unit" u.toStr)
    "weather-icon-set" ic.toStr) "weather-theme" th.toStr)
    "weather-history" (stringifyList h)

/-! Round trip of the embedded JSON string array encoder and parser. -/

/-- The hexadecimal digit characters decode back to their values. -/
theorem hexVal_hexDigitChar (n : Nat) (h : n < 16) :
    hexVal (hexDigitChar n) = some n := by
  interval_cases n <;> decide

/-- The zero digit decodes to zero. -/
theorem hexVal_zero : hexVal '0' = some 0 := by decide

/-- Rebuilding a string from its character list is the identity. -/
theorem mk_data (s : String) : String.mk s.data = s := rfl

/-- The character list of a rebuilt string. -/
theorem data_mk (cs : List Char) : (String.mk cs).data = cs := rfl

/-- Parsing after the escape of one character peels exactly that
character. -/
theorem parseStrBody_escChar (c : Char) (cs : List Char) :
    parseStrBody (escChar c ++ cs) =
      (parseStrBody cs).map (fun p => (c :: p.1, p.2)) := by
  by_cases h1 : c = '"'
  · subst h1
    rw [show escChar '"' ++ cs = '\\' :: '"' :: cs from rfl,
      parseStrBody.eq_def]
    simp [escMap]
  by_cases h2 : c = '\\'
  · subst h2
    rw [show escChar '\\' ++ cs = '\\' :: '\\' :: cs from rfl,
      parseStrBody.eq_def]
    simp [escMap]
  by_cases h3 : c = Char.ofNat 8
  · subst h3
    rw [show escChar (Char.ofNat 8) ++ cs = '\\' :: 'b' :: cs from rfl,
      parseStrBody.eq_def]
    simp [escMap]
  by_cases h4 : c = '\t'
  · subst h4
    rw [show escChar '\t' ++ cs = '\\' :: 't' :: cs from rfl,
      parseStrBody.eq_def]
    simp [escMap]
  by_cases h5 : c = '\n'
  · subst h5
    rw [show escChar '\n' ++ cs = '\\' :: 'n' :: cs from rfl,
      parseStrBody.eq_def]
    simp [escMap]
  by_cases h6 : c = Char.ofNat 12
  · subst h6
    rw [show escChar (Char.ofNat 12) ++ cs = '\\' :: 'f' :: cs from rfl,
      parseStrBody.eq_def]
    simp [escMap]
  by_cases h7 : c = '\r'
  · subst h7
    rw [show escChar '\r' ++ cs = '\\' :: 'r' :: cs from rfl,
      parseStrBody.eq_def]
    simp [escMap]
  by_cases h8 : c.toNat < 32
  · have hesc : escChar c ++ cs =
        '\\' :: 'u' :: '0' :: '0' :: hexDigitChar (c.toNat / 16) ::
          hexDigitChar (c.toNat % 16) :: cs := by
      simp [escChar, h1, h2, h3, h4, h5, h6, h7, h8]
    have hdiv : c.toNat / 16 < 16 := by omega
    have hmod : c.toNat % 16 < 16 := by omega
    have hval : ((0 * 16 + 0) * 16 + c.toNat / 16) * 16 + c.toNat % 16 =
        c.toNat := by omega
    have hval2 : c.toNat / 16 * 16 + c.toNat % 16 = c.toNat := by omega
    have hlow : c.toNat < 55296 := by omega
    rw [hesc, parseStrBody.eq_def]
    simp [hexVal_zero, hexVal_hexDigitChar _ hdiv, hexVal_hexDigitChar _ hmod,
      hval, hval2, hlow, Char.ofNat_toNat]
  · have hesc : escChar c ++ cs = c :: cs := by
      simp [escChar, h1, h2, h3, h4, h5, h6, h7, h8]
    rw [hesc, parseStrBody.eq_def]
    simp [h1, h2, h8]

/-- Parsing the encoded body of a string followed by the closing quote
recovers the string and the remainder. -/
theorem parseStrBody_encode (s cs : List Char) :
    parseStrBody (s.flatMap escChar ++ '"' :: cs) = some (s, cs) := by
  induction s with
  | nil =>
      rw [show ([] : List Char).flatMap escChar ++ '"' :: cs = '"' :: cs
        from rfl, parseStrBody.eq_def]
      simp
  | cons c s ih =>
      rw [show (c :: s).flatMap escChar ++ '"' :: cs =
        escChar c ++ (s.flatMap escChar ++ '"' :: cs) by simp]
      rw [parseStrBody_escChar, ih]
      rfl

/-- skipWs keeps a list starting with a comma. -/
theorem skipWs_comma (cs : List Char) : skipWs (',' :: cs) = ',' :: cs := by
  simp [skipWs, List.dropWhile_cons, isWsChar]

/-- skipWs keeps a list starting with a quote. -/
theorem skipWs_quote (cs : List Char) : skipWs ('"' :: cs) = '"' :: cs := by
  simp [skipWs, List.dropWhile_cons, isWsChar]

/-- skipWs keeps a list starting with a closing bracket. -/
theorem skipWs_rbracket (cs : List Char) :
    skipWs (']' :: cs) = ']' :: cs := by
  simp [skipWs, List.dropWhile_cons, isWsChar]

/-- skipWs keeps a list starting with an opening bracket. -/
theorem skipWs_lbracket (cs : List Char) :
    skipWs ('[' :: cs) = '[' :: cs := by
  simp [skipWs, List.dropWhile_cons, isWsChar]

/-- skipWs of the empty list. -/
theorem skipWs_nil : skipWs [] = [] := rfl

/-- Appending past an encoded string regroups around its quotes. -/
theorem encodeStr_append (s Y : List Char) :
    encodeStr s ++ Y = '"' :: (s.flatMap escChar ++ '"' :: Y) := by
  simp [encodeStr]

/-- The encoded tail is at least as long as the element list, so fuel chosen
from the remaining input length always suffices. -/
theorem length_le_encodeTail (L : List (List Char)) :
    L.length ≤ (encodeTail L).length := by
  induction L with
  | nil => simp [encodeTail]
  | cons s L ih =>
      simp only [encodeTail, List.length_cons, List.length_append]
      omega

/-- Parsing the encoded tail of an array followed by the closing bracket
recovers the remaining elements, for any sufficient fuel. -/
theorem parseLoop_encodeTail (L : List (List Char)) : ∀ (fuel : Nat)
    (tail : List Char), L.length < fuel →
    parseLoop fuel (encodeTail L ++ ']' :: tail) = some (L, tail) := by
  induction L with
  | nil =>
      intro fuel tail h
      match fuel with
      | f + 1 =>
        rw [show encodeTail [] ++ ']' :: tail = ']' :: tail from rfl,
          parseLoop.eq_def]
        simp [skipWs_rbracket]
  | cons s L ih =>
      intro fuel tail h
      match fuel, h with
      | f + 1, h =>
        have hrec := ih f tail (by simp at h; omega)
        rw [show encodeTail (s :: L) ++ ']' :: tail =
          ',' :: (encodeStr s ++ (encodeTail L ++ ']' :: tail)) by
            simp [encodeTail], parseLoop.eq_def]
        simp [skipWs_comma, encodeStr_append, skipWs_quote,
          parseStrBody_encode, hrec]

/-- Rebuilding strings from their character lists is the identity on
lists. -/
theorem map_mk_map_data (l : List String) :
    (l.map String.data).map (fun x => String.mk x) = l := by
  induction l with
  | nil => rfl
  | cons s l ih => simp only [List.map_cons, ih]

/-- The embedded JSON round trip: parsing the stringified history recovers
the same ordered list. -/
theorem parse_stringify (l : List String) :
    parseStringList (stringifyList l) = some l := by
  cases l with
  | nil => decide
  | cons s rest =>
      rw [show stringifyList (s :: rest) =
        String.mk ('[' :: encodeStr s.data ++
          encodeTail (rest.map String.data) ++ [']']) from rfl]
      simp only [parseStringList, data_mk, List.cons_append,
        List.append_assoc, skipWs_lbracket]
      simp only [encodeStr_append, skipWs_quote]
      have hloop := parseLoop_encodeTail (rest.map String.data)
        ((encodeTail (rest.map String.data)).length + 1 + 1) []
        (by
          have h1 := length_le_encodeTail (rest.map String.data)
          omega)
      simp [parseStrBody_encode, hloop, skipWs_nil, mk_data,
        map_mk_map_data]
      simp [Function.comp_def, mk_data]

/-- The stringified history is never the empty string, so the falsy default
of the initializer does not interfere with the round trip. -/
theorem stringifyList_ne_empty (l : List String) : stringifyList l ≠ "" := by
  cases l with
  | nil => decide
  | cons s rest =>
      rw [show stringifyList (s :: rest) =
        String.mk ('[' :: encodeStr s.data ++
          encodeTail (rest.map String.data) ++ [']']) from rfl]
      intro hc
      have hd := congrArg String.data hc
      simp [data_mk] at hd

/-- Claim C7: after writing the history list and the three preference
strings to the persisted store, the startup initializers read back exactly
the written unit, icon set and theme strings and exactly the same ordered
history list, for any prior store contents. -/
theorem preferences_history_roundtrip (u : TempUnit) (ic : IconSet)
    (th : Theme) (h : List String) (st : Store) :
    initUnit (persistAll u ic th h st) = u.toStr ∧
    initIconSet (persistAll u ic th h st) = ic.toStr ∧
    initTheme (persistAll u ic th h st) = th.toStr ∧
    initSearchHistory (persistAll u ic th h st) = some h := by
  refine ⟨?_, ?_, ?_, ?_⟩
  · cases u <;>
      simp [persistAll, initUnit, initRawPref, getItem, setItem,
        TempUnit.toStr]
  · cases ic <;>
      simp [persistAll, initIconSet, initRawPref, getItem, setItem,
        IconSet.toStr]
  · cases th <;>
      simp [persistAll, initTheme, initRawPref, getItem, setItem,
        Theme.toStr]
  · simp [persistAll, initSearchHistory, getItem, setItem,
      stringifyList_ne_empty h, parse_stringify h]

/-- Claim C8 concerns the startup initializer of the history (src/index.tsx
lines 497 to 499).  The claim does not hold: the fallback applies only to a
missing or empty stored value, and an unparsable nonempty stored value makes
JSON.parse throw inside the useState initializer, so startup raises instead
of falling back.  This theorem evaluates the embedded initializer at the
failing input (the stored string consisting of one opening curly bracket,
which is not valid JSON): the result is none, the embedding of a thrown
SyntaxError, while a missing key does fall back to the empty history. -/
theorem corrupt_history_initializer_raises :
    initSearchHistory (setItem emptyStore "weather-history" "\x7b") = none ∧
    initSearchHistory emptyStore = some [] := by
  constructor <;> decide
